import Mathlib

/-!
Shallow embedding of `auxiliary.py` from the respy tutorial repository.

The module contains six matplotlib/pandas plotting helpers.  We embed the
dataframe operations the module performs as pure, executable Lean functions:

* a long-form `DataFrame` is a column list plus a list of rows, each row an
  association list from column names to cell values (cells are modelled as
  strings; pandas rows always carry every column, a missing cell reads as
  the sentinel "NaN");
* fallible pandas/matplotlib calls return `Except PyError`, one constructor
  per Python exception class the corresponding call raises;
* rendering calls produce figure-description structures instead of drawing;
  `plt.show` has no effect that the claims mention, so it is not modelled;
* `pd.read_pickle` is modelled against an abstract file system
  `fs : String → Option WideDF`, a lookup from path to the pickled
  (wide-form, numeric) dataframe stored there; a failed lookup is a
  `FileNotFoundError`.

Group keys are collected with `List.dedup`; the claims under study do not
depend on the order in which pandas enumerates groups, only on membership,
so the dedup order (rather than the sorted order pandas uses) is immaterial.
-/

/-- Python exception classes that the library calls in `auxiliary.py` can
raise, one constructor each. -/
inductive PyError where
  /-- `FileNotFoundError` from `pd.read_pickle` on a missing path. -/
  | fileNotFound (path : String)
  /-- `KeyError` from `df.groupby(key)` or `df[key]` on a missing column. -/
  | keyError (key : String)
  /-- `AttributeError` from attribute access such as `.Choice` on a
      groupby object when the column is missing. -/
  | attributeError (attr : String)
  /-- `pandas.errors.UndefinedVariableError` from `df.query` naming a
      column the frame does not have. -/
  | undefinedVariableError (attr : String)
  /-- `TypeError` from `.plot.bar` on a table with no numeric data. -/
  | typeError (msg : String)
  /-- `UnboundLocalError` from reading a local variable that no branch
      assigned. -/
  | unboundLocalError (attr : String)
deriving DecidableEq

/-- A long-form pandas dataframe: schema plus rows.  Each row is an
association list from column name to cell value. -/
structure DataFrame where
  cols : List String
  rows : List (List (String × String))
deriving DecidableEq

/-- Association-list lookup by key (first match wins), with propositional
equality on keys. -/
def alookup {α : Type} (k : String) : List (String × α) → Option α
  | [] => none
  | (k₁, v) :: rest => if k = k₁ then some v else alookup k rest

/-- Read one cell of a row; pandas rows always carry every schema column,
a missing cell reads as the NaN sentinel. -/
def cell (r : List (String × String)) (c : String) : String :=
  (alookup c r).getD "NaN"

/-- Number of occurrences of a value in a list of cell values. -/
def countOf (c : String) : List String → Nat
  | [] => 0
  | x :: xs => countOf c xs + (if x = c then 1 else 0)

/-- The column `c` of a row list, as a list of cell values. -/
def colValsIn (rows : List (List (String × String))) (c : String) : List String :=
  rows.map (fun r => cell r c)

/-- The rows whose `key` column holds the value `k` — one group of
`df.groupby(key)`. -/
def groupOf (rows : List (List (String × String))) (key k : String) :
    List (List (String × String)) :=
  rows.filter (fun r => cell r key == k)

/-- `value_counts(normalize=True)` on a list of cell values: each distinct
value paired with its count divided by the total count. -/
def groupShares (vals : List String) : List (String × ℚ) :=
  vals.dedup.map (fun c => (c, (countOf c vals : ℚ) / (vals.length : ℚ)))

/-- `df.groupby(key).col.value_counts(normalize=True)`: for every distinct
value of `key`, the normalized value counts of column `col` within that
group. -/
def valueCountsNorm (rows : List (List (String × String))) (key col : String) :
    List (String × List (String × ℚ)) :=
  (colValsIn rows key).dedup.map
    (fun k => (k, groupShares (colValsIn (groupOf rows key k) col)))

/-- The result of `.unstack()`: the category axis (union of all categories)
plus, per group key, one entry per category — `none` models the NaN that
unstacking fills in for a category absent from the group. -/
abbrev UnstackTbl := List String × List (String × List (String × Option ℚ))

/-- `.unstack()` on a grouped value-counts result. -/
def unstackTbl (g : List (String × List (String × ℚ))) : UnstackTbl :=
  let cats := ((g.map (fun p => p.2.map Prod.fst)).flatten).dedup
  (cats, g.map (fun p => (p.1, cats.map (fun c => (c, alookup c p.2)))))

/-- `df.groupby(key).col.value_counts(normalize=True).unstack()`, with the
pandas failure modes: `groupby` raises `KeyError` when `key` is not a
column, and the attribute access `.col` on the groupby object raises
`AttributeError` when `col` is not a column. -/
def choiceSharesTable (df : DataFrame) (key col : String) : Except PyError UnstackTbl :=
  if key ∈ df.cols then
    if col ∈ df.cols then .ok (unstackTbl (valueCountsNorm df.rows key col))
    else .error (.attributeError col)
  else .error (.keyError key)

/-- `.plot.bar(...)` on an unstacked table: raises `TypeError` on a table
with no rows (pandas: no numeric data to plot), otherwise renders the
table as drawn. -/
def plotBarTbl (tbl : UnstackTbl) : Except PyError UnstackTbl :=
  if tbl.2.isEmpty then .error (.typeError "no numeric data to plot") else .ok tbl

/-- `df.query(col == value)`: keeps the rows whose `col` cell equals
`value`; a frame without the column raises `UndefinedVariableError`. -/
def query (df : DataFrame) (col v : String) : Except PyError DataFrame :=
  if col ∈ df.cols then
    .ok ⟨df.cols, df.rows.filter (fun r => cell r col == v)⟩
  else .error (.undefinedVariableError col)

/-- Figure drawn by `plot_choice_shares`. -/
structure ChoiceSharesFig where
  color : List String
  legendNcol : Nat
  legendLoc : String
  legendAnchor : ℚ × ℚ
  bars : UnstackTbl
deriving DecidableEq

/-- `plot_choice_shares(df, friday=False)` (`friday` defaults to `False`
in the source; here it is an explicit argument). -/
def plot_choice_shares (df : DataFrame) (friday : Bool) : Except PyError ChoiceSharesFig := do
  let cpair := if friday then (["C0", "C2", "C1"], 3) else (["C0", "C1"], 2)
  let tbl ← choiceSharesTable df "Period" "Choice"
  let tbl ← plotBarTbl tbl
  pure ⟨cpair.1, cpair.2, "lower center", ((1 : ℚ) / 2, -(11 : ℚ) / 40), tbl⟩

/-- Figure drawn by `plot_choice_prob`. -/
structure ChoiceProbFig where
  legendNcol : Nat
  legendLoc : String
  legendAnchor : ℚ × ℚ
  bars : UnstackTbl
deriving DecidableEq

/-- `plot_choice_prob(df)`. -/
def plot_choice_prob (df : DataFrame) : Except PyError ChoiceProbFig := do
  let tbl ← choiceSharesTable df "Period" "Choice"
  let tbl ← plotBarTbl tbl
  pure ⟨2, "lower center", ((1 : ℚ) / 2, -(11 : ℚ) / 40), tbl⟩

/-- Figure drawn by `plot_choice_prob_and_exp_level` (two axes). -/
structure ProbExpFig where
  axs0bars : UnstackTbl
  axs0title : String
  axs1bars : UnstackTbl
  axs1title : String
  axs1cmap : String
  legend0Ncol : Nat
  legend0Loc : String
  legend0Anchor : ℚ × ℚ
  legend1Ncol : Nat
  legend1Loc : String
  legend1Anchor : ℚ × ℚ
  legend1title : String
deriving DecidableEq

/-- `plot_choice_prob_and_exp_level(df)`: the `Choice` pipeline renders on
`axs[0]` first, then the `Experience_Fishing` pipeline on `axs[1]`. -/
def plot_choice_prob_and_exp_level (df : DataFrame) : Except PyError ProbExpFig := do
  let t0 ← choiceSharesTable df "Period" "Choice"
  let t0 ← plotBarTbl t0
  let t1 ← choiceSharesTable df "Period" "Experience_Fishing"
  let t1 ← plotBarTbl t1
  pure
    { axs0bars := t0
      axs0title := "Choice Probabilities"
      axs1bars := t1
      axs1title := "Share of Experience Level per Period"
      axs1cmap := "Blues"
      legend0Ncol := 2
      legend0Loc := "lower center"
      legend0Anchor := ((1 : ℚ) / 2, -(2 : ℚ) / 5)
      legend1Ncol := 1
      legend1Loc := "right"
      legend1Anchor := ((13 : ℚ) / 10, (1 : ℚ) / 2)
      legend1title := "Experience" }

/-- One subplot of `plot_fishing_grounds`. -/
structure FishPanel where
  title : String
  bars : UnstackTbl
deriving DecidableEq

/-- Figure drawn by `plot_fishing_grounds`.  The suptitle string is not
modelled (no claim concerns it). -/
structure FishFig where
  nAxes : Nat
  panels : List FishPanel
  legendNcol : Nat
  legendLoc : String
  legendAnchor : ℚ × ℚ
deriving DecidableEq

/-- One iteration of the loop in `plot_fishing_grounds`: query on the
observable value, aggregate, render the bar plot. -/
def fishPanel (df : DataFrame) (observable : String) : Except PyError FishPanel := do
  let sub ← query df "Fishing_Grounds" observable
  let tbl ← choiceSharesTable sub "Period" "Choice"
  let tbl ← plotBarTbl tbl
  pure ⟨"Fishing grounds: " ++ observable, tbl⟩

/-- `plot_fishing_grounds(df)`: a 1×2 axes grid, one panel per observable
value, looped over in the order rich, poor. -/
def plot_fishing_grounds (df : DataFrame) : Except PyError FishFig := do
  let p0 ← fishPanel df "rich"
  let p1 ← fishPanel df "poor"
  pure ⟨2, [p0, p1], 2, "lower center", (-(3 : ℚ) / 20, -(3 : ℚ) / 10)⟩

/-- The pickle path read for a model name: the f-string
`data/choices_{model}.pkl`. -/
def modelPath (m : String) : String := "data/choices_" ++ m ++ ".pkl"

/-- A pickled result table: a wide-form dataframe given as its columns in
order, each with its numeric series. -/
abbrev WideDF := List (String × List ℚ)

/-- `df.columns` of a wide-form frame. -/
def wideCols (w : WideDF) : List String := w.map Prod.fst

/-- Column selection `df[c]` on a wide-form frame; `KeyError` when
absent. -/
def getCol (w : WideDF) (c : String) : Except PyError (List ℚ) :=
  match alookup c w with
  | some v => .ok v
  | none => .error (.keyError c)

/-- `pd.read_pickle(modelPath m)` against the abstract file system. -/
def readPickle (fs : String → Option WideDF) (m : String) : Except PyError WideDF :=
  match fs (modelPath m) with
  | some w => .ok w
  | none => .error (.fileNotFound (modelPath m))

/-- The two guarded assignments at the top of `plot_choices_kw`: axes
count and model list.  The source writes two separate `if` statements
whose guards are mutually exclusive, which is equivalent to this
if/else-if chain; `none` models the state in which neither branch
assigned `models` (nor `fig`, `ax`). -/
def kwSetup (ex : String) : Option (Nat × List String) :=
  if ex = "1994" then some (3, ["kw_94_one", "kw_94_two", "kw_94_three"])
  else if ex = "1997" then some (2, ["kw_97_basic", "kw_97_extended"])
  else none

/-- Insert-or-update of a Python dict viewed as an insertion-ordered
association list: an existing key keeps its position and gets the new
value, a new key is appended. -/
def upsert (d : List (String × String)) (k v : String) : List (String × String) :=
  match d with
  | [] => [(k, v)]
  | (k₁, v₁) :: rest => if k₁ = k then (k₁, v) :: rest else (k₁, v₁) :: upsert rest k v

/-- `dict(zip(labels, handles))` on a list of (label, handle) pairs:
left-to-right insertion with last-value-wins. -/
def pyDictZip (pairs : List (String × String)) : List (String × String) :=
  pairs.foldl (fun d p => upsert d p.1 p.2) []

/-- The horizontal legend-anchor offset in `plot_choices_kw`: `-0.7` when
the axes count is odd, `-0.2` otherwise. -/
def kwMoveLeft (nAxes : Nat) : ℚ := if nAxes % 2 = 1 then -(7 : ℚ) / 10 else -(1 : ℚ) / 5

/-- One `plt.legend(...)` invocation. -/
structure LegendCall where
  entries : List (String × String)
  loc : String
  ncolumns : Nat
  anchor : ℚ × ℚ
deriving DecidableEq

/-- One subplot drawn by an iteration of the loop in `plot_choices_kw`:
the model, its pickle path, the loaded frame, the (label, handle) pairs
gathered from the current axes, and the legend call the iteration made. -/
structure KwPanel where
  model : String
  path : String
  df : WideDF
  gathered : List (String × String)
  legend : LegendCall
  title : String
deriving DecidableEq

/-- Build the panel of one `plot_choices_kw` loop iteration. -/
def kwPanelOf (nAxes : Nat) (gathered : List (String × String)) (m : String)
    (w : WideDF) : KwPanel :=
  { model := m
    path := modelPath m
    df := w
    gathered := gathered
    legend :=
      { entries := pyDictZip gathered
        loc := "lower center"
        ncolumns := (wideCols w).length
        anchor := (kwMoveLeft nAxes, -(1 : ℚ) / 4) }
    title := "Example model: " ++ m }

/-- The loop of `plot_choices_kw`: read each pickle in order and render
its panel; `gather i` is the (label, handle) list that
`plt.gca().get_legend_handles_labels()` returns at iteration `i` (zipped
label-first as `dict(zip(labels, handles))` does). -/
def kwLoop (fs : String → Option WideDF) (gather : Nat → List (String × String))
    (nAxes : Nat) : Nat → List String → Except PyError (List KwPanel)
  | _, [] => .ok []
  | i, m :: rest => do
      let w ← readPickle fs m
      let ps ← kwLoop fs gather nAxes (i + 1) rest
      pure (kwPanelOf nAxes (gather i) m w :: ps)

/-- Figure drawn by `plot_choices_kw`. -/
structure KwFig where
  nAxes : Nat
  panels : List KwPanel
deriving DecidableEq

/-- `plot_choices_kw(example="1994")`: when neither guard assigned
`models`, the loop header `for i, model in enumerate(models)` raises
`UnboundLocalError` before any file is read or any axes created. -/
def plot_choices_kw (ex : String) (fs : String → Option WideDF)
    (gather : Nat → List (String × String)) : Except PyError KwFig :=
  match kwSetup ex with
  | none => .error (.unboundLocalError "models")
  | some (n, models) => do
      let ps ← kwLoop fs gather n 0 models
      pure ⟨n, ps⟩

/-- The pickle paths a sequence of `read_pickle` calls touches, stopping
after the first missing file (the raised exception aborts the loop); the
missing path itself was still accessed. -/
def kwReadsGo (fs : String → Option WideDF) : List String → List String
  | [] => []
  | m :: rest =>
      modelPath m :: (if (fs (modelPath m)).isSome then kwReadsGo fs rest else [])

/-- The pickle paths `plot_choices_kw` reads. -/
def kwReads (ex : String) (fs : String → Option WideDF) : List String :=
  match kwSetup ex with
  | none => []
  | some (_, models) => kwReadsGo fs models

/-- The fixed color list of `plot_kw_97_comparison`. -/
def kw97Colors : List String :=
  ["tab:blue", "tab:orange", "tab:green", "tab:red", "tab:purple"]

/-- The fixed model list of `plot_kw_97_comparison`. -/
def kw97Models : List String := ["kw_97_obs", "kw_97_basic", "kw_97_extended"]

/-- Python `str.capitalize`: first character upper-cased, the rest
lower-cased. -/
def pyCapitalize (s : String) : String :=
  match s.data with
  | [] => ""
  | c :: cs => String.mk (c.toUpper :: cs.map Char.toLower)

/-- `.replace("_", " ")` for the single-character pattern the source
uses. -/
def underscoresToSpaces (s : String) : String :=
  String.mk (s.data.map (fun c => if c = '_' then ' ' else c))

/-- One subplot of `plot_kw_97_comparison`: the three series drawn on axes
`axIndex` for one choice column. -/
structure Kw97Panel where
  axIndex : Nat
  choice : String
  color : String
  obsSeries : List ℚ
  basicSeries : List ℚ
  extSeries : List ℚ
  title : String
  xlabel : String
deriving DecidableEq

/-- Figure drawn by `plot_kw_97_comparison`. -/
structure Kw97Fig where
  nAxes : Nat
  panels : List Kw97Panel
  legendAxIndex : Nat
  legendNcol : Nat
  legendLoc : String
  legendAnchor : ℚ × ℚ
  deletedAxes : List Nat
deriving DecidableEq

/-- Build the panel of one `plot_kw_97_comparison` loop iteration. -/
def kw97PanelOf (i : Nat) (choice color : String) (so sb se : List ℚ) : Kw97Panel :=
  { axIndex := i
    choice := choice
    color := color
    obsSeries := so
    basicSeries := sb
    extSeries := se
    title := underscoresToSpaces (pyCapitalize choice)
    xlabel := "Period" }

/-- The panel loop of `plot_kw_97_comparison`, over
`zip(df.columns, colors)` where `df` is the last frame the load loop
bound: selects the choice column from each of the three loaded frames. -/
def kw97Panels (od bd ed : WideDF) : Nat → List (String × String) → Except PyError (List Kw97Panel)
  | _, [] => .ok []
  | i, (choice, color) :: rest => do
      let so ← getCol od choice
      let sb ← getCol bd choice
      let se ← getCol ed choice
      let ps ← kw97Panels od bd ed (i + 1) rest
      pure (kw97PanelOf i choice color so sb se :: ps)

/-- `plot_kw_97_comparison()`: loads the three model pickles (the loop
variable `df` ends bound to the *last* model loaded, `kw_97_extended`),
creates a 2×3 axes grid, draws one panel per entry of
`zip(df.columns, colors)`, places the legend on `ax[4]`, and deletes
`ax[5]`. -/
def plot_kw_97_comparison (fs : String → Option WideDF) : Except PyError Kw97Fig := do
  let dObs ← readPickle fs "kw_97_obs"
  let dBasic ← readPickle fs "kw_97_basic"
  let dExt ← readPickle fs "kw_97_extended"
  let ps ← kw97Panels dObs dBasic dExt 0 ((wideCols dExt).zip kw97Colors)
  pure
    { nAxes := 6
      panels := ps
      legendAxIndex := 4
      legendNcol := 5
      legendLoc := "lower center"
      legendAnchor := (-(3 : ℚ) / 10, -(3 : ℚ) / 10)
      deletedAxes := [5] }

/-- The pickle paths `plot_kw_97_comparison` reads. -/
def kw97Reads (fs : String → Option WideDF) : List String := kwReadsGo fs kw97Models

/-!
Library-call error traces.  For each function of the module, the
definitions below re-enumerate, in execution order, the fallible
underlying library calls its body makes, and return the first exception
one of them raises (`none` when none raises).  They are written from the
source independently of the figure definitions above, so that comparing a
function with its trace settles whether it raises exactly when a library
call does.
-/

/-- The error of an `Except`, if any. -/
def errOpt {α : Type} : Except PyError α → Option PyError
  | .error e => some e
  | .ok _ => none

/-- First error of the bar pipeline
`df.groupby(key).col.value_counts(normalize=True).unstack().plot.bar(...)`. -/
def barPipelineErr (df : DataFrame) (key col : String) : Option PyError :=
  match choiceSharesTable df key col with
  | .error e => some e
  | .ok t => errOpt (plotBarTbl t)

/-- First library error raised inside `plot_choice_shares`. -/
def plot_choice_shares_libErr (df : DataFrame) : Option PyError :=
  barPipelineErr df "Period" "Choice"

/-- First library error raised inside `plot_choice_prob`. -/
def plot_choice_prob_libErr (df : DataFrame) : Option PyError :=
  barPipelineErr df "Period" "Choice"

/-- First library error raised inside `plot_choice_prob_and_exp_level`:
the `Choice` pipeline runs before the `Experience_Fishing` one. -/
def plot_choice_prob_and_exp_level_libErr (df : DataFrame) : Option PyError :=
  match barPipelineErr df "Period" "Choice" with
  | some e => some e
  | none => barPipelineErr df "Period" "Experience_Fishing"

/-- First library error raised by one loop iteration of
`plot_fishing_grounds`: the query, then the bar pipeline. -/
def fishPanelErr (df : DataFrame) (observable : String) : Option PyError :=
  match query df "Fishing_Grounds" observable with
  | .error e => some e
  | .ok sub => barPipelineErr sub "Period" "Choice"

/-- First library error raised inside `plot_fishing_grounds`: the rich
iteration runs before the poor one. -/
def plot_fishing_grounds_libErr (df : DataFrame) : Option PyError :=
  match fishPanelErr df "rich" with
  | some e => some e
  | none => fishPanelErr df "poor"

/-- First error among a sequence of `read_pickle` calls. -/
def readsErr (fs : String → Option WideDF) : List String → Option PyError
  | [] => none
  | m :: rest =>
      match fs (modelPath m) with
      | none => some (.fileNotFound (modelPath m))
      | some _ => readsErr fs rest

/-- First library error raised inside `plot_choices_kw`: only the
`read_pickle` calls of the loop can raise; when neither guard bound
`models`, no library call runs at all. -/
def plot_choices_kw_libErr (ex : String) (fs : String → Option WideDF) : Option PyError :=
  match kwSetup ex with
  | none => none
  | some (_, models) => readsErr fs models

/-- First error among the column selections of the panel loop of
`plot_kw_97_comparison`, in execution order. -/
def kw97PanelsErr (od bd ed : WideDF) : List (String × String) → Option PyError
  | [] => none
  | (choice, _) :: rest =>
      match getCol od choice with
      | .error e => some e
      | .ok _ =>
          match getCol bd choice with
          | .error e => some e
          | .ok _ =>
              match getCol ed choice with
              | .error e => some e
              | .ok _ => kw97PanelsErr od bd ed rest

/-- First library error raised inside `plot_kw_97_comparison`: the three
`read_pickle` calls, then the column selections of the panel loop. -/
def plot_kw_97_comparison_libErr (fs : String → Option WideDF) : Option PyError :=
  match readsErr fs kw97Models with
  | some e => some e
  | none =>
      match fs (modelPath "kw_97_obs"), fs (modelPath "kw_97_basic"),
          fs (modelPath "kw_97_extended") with
      | some od, some bd, some ed => kw97PanelsErr od bd ed ((wideCols ed).zip kw97Colors)
      | _, _, _ => none

/-!
Frame effects.  Every pandas/matplotlib call the module applies to a
caller-supplied dataframe (`query`, `groupby`, `value_counts`, `unstack`,
the `.plot` family) returns a fresh object and leaves its input untouched
(no call in the source passes `inplace=True`, and no statement assigns
into `df`).  Each primitive below maps an input frame to its state after
the call, and each `*_dfAfter` definition chains them in the order the
function body applies them.
-/

/-- State of the input frame after `df.query(...)` (returns a copy). -/
def queryEffect (df : DataFrame) : DataFrame := df

/-- State of the input frame after the
`groupby(...).value_counts(...).unstack()` chain (each step returns a new
object). -/
def groupbyAggEffect (df : DataFrame) : DataFrame := df

/-- State of the frame a `.plot` / `.plot.bar` call renders (plotting
reads the table only). -/
def plotRenderEffect (df : DataFrame) : DataFrame := df

/-- The caller-visible state of `df` after `plot_choice_shares(df)`. -/
def plot_choice_shares_dfAfter (df : DataFrame) (friday : Bool) : DataFrame :=
  plotRenderEffect (groupbyAggEffect df)

/-- The caller-visible state of `df` after `plot_choice_prob(df)`. -/
def plot_choice_prob_dfAfter (df : DataFrame) : DataFrame :=
  plotRenderEffect (groupbyAggEffect df)

/-- The caller-visible state of `df` after
`plot_choice_prob_and_exp_level(df)` (two pipelines). -/
def plot_choice_prob_and_exp_level_dfAfter (df : DataFrame) : DataFrame :=
  plotRenderEffect (groupbyAggEffect (plotRenderEffect (groupbyAggEffect df)))

/-- The caller-visible state of `df` after `plot_fishing_grounds(df)`
(query plus pipeline, twice). -/
def plot_fishing_grounds_dfAfter (df : DataFrame) : DataFrame :=
  plotRenderEffect (groupbyAggEffect (queryEffect
    (plotRenderEffect (groupbyAggEffect (queryEffect df)))))

/-!
File accesses.  The bodies of the four dataframe-taking functions contain
no `read_pickle` (nor any other file) call, so their path-trace is empty.
-/

/-- Paths `plot_choice_shares` reads: its body has no file access. -/
def plot_choice_shares_reads (df : DataFrame) (friday : Bool) : List String := []

/-- Paths `plot_choice_prob` reads: its body has no file access. -/
def plot_choice_prob_reads (df : DataFrame) : List String := []

/-- Paths `plot_choice_prob_and_exp_level` reads: its body has no file
access. -/
def plot_choice_prob_and_exp_level_reads (df : DataFrame) : List String := []

/-- Paths `plot_fishing_grounds` reads: its body has no file access. -/
def plot_fishing_grounds_reads (df : DataFrame) : List String := []

/-- The `col` values of the `key = k` group of `df` — the data over which
one period aggregates. -/
def periodVals (df : DataFrame) (key col k : String) : List String :=
  colValsIn (groupOf df.rows key k) col

/-!
Concrete inputs used to instantiate the theorems below.
-/

/-- A two-row frame: one period, two distinct choices. -/
def df0 : DataFrame :=
  { cols := ["Period", "Choice"]
    rows := [[("Period", "0"), ("Choice", "fish")], [("Period", "0"), ("Choice", "hammock")]] }

/-- A frame without the columns the module aggregates on. -/
def dfBare : DataFrame := { cols := ["Income"], rows := [[("Income", "3")]] }

/-- A frame with observables, one rich row and one poor row. -/
def dfFish : DataFrame :=
  { cols := ["Period", "Choice", "Fishing_Grounds"]
    rows := [[("Period", "0"), ("Choice", "fish"), ("Fishing_Grounds", "rich")],
             [("Period", "0"), ("Choice", "hammock"), ("Fishing_Grounds", "poor")]] }

/-- A row whose observable value is neither rich nor poor. -/
def rowLake : List (String × String) :=
  [("Period", "0"), ("Choice", "fish"), ("Fishing_Grounds", "lake")]

/-- A small pickled result table with two columns. -/
def wSmall : WideDF := [("a", [1]), ("b", [2])]

/-- A file system holding `wSmall` at every path. -/
def fsAll : String → Option WideDF := fun _ => some wSmall

/-- An empty file system: every read raises `FileNotFoundError`. -/
def fsNone : String → Option WideDF := fun _ => none

/-- Axes with nothing on them: no (label, handle) pairs gathered. -/
def gather0 : Nat → List (String × String) := fun _ => []

/-- Gathered (label, handle) pairs with a repeated label. -/
def gatherW : Nat → List (String × String) :=
  fun _ => [("a", "h1"), ("b", "h2"), ("a", "h3")]

/-- The figure `plot_choice_shares df0 True` produces (extracted from the
computation so that equalities hold by reflexivity). -/
def c1figT : ChoiceSharesFig :=
  (plot_choice_shares df0 true).toOption.getD ⟨[], 0, "", (0, 0), ([], [])⟩

/-- The unstacked table of `df0`. -/
def c6tbl0 : UnstackTbl :=
  (choiceSharesTable df0 "Period" "Choice").toOption.getD ([], [])

/-- The unstacked row of period 0 of `df0`. -/
def c6row0 : List (String × Option ℚ) := (c6tbl0.2.headD ("", [])).2

/-- The figure `plot_choices_kw "1997" fsAll gatherW` produces. -/
def c7fig : KwFig := (plot_choices_kw "1997" fsAll gatherW).toOption.getD ⟨0, []⟩

/-- The figure `plot_kw_97_comparison fsAll` produces. -/
def c9fig : Kw97Fig :=
  (plot_kw_97_comparison fsAll).toOption.getD ⟨0, [], 0, 0, "", (0, 0), []⟩

-- Equality of embedded results is decidable, so the theorems below can be
-- instantiated on concrete inputs by evaluation.
deriving instance DecidableEq for Except

/-!
Theorems.  The `except_*` lemmas restate the `Except` monad operations for
rewriting; the remaining lemmas build up to one theorem per specification
claim.
-/

@[simp] theorem except_ok_bind {α β : Type} (a : α) (f : α → Except PyError β) :
    (Except.ok a >>= f) = f a := rfl

@[simp] theorem except_error_bind {α β : Type} (e : PyError) (f : α → Except PyError β) :
    ((Except.error e : Except PyError α) >>= f) = Except.error e := rfl

@[simp] theorem except_map_ok {α β : Type} (f : α → β) (a : α) :
    (f <$> (Except.ok a : Except PyError α)) = Except.ok (f a) := rfl

@[simp] theorem except_map_error {α β : Type} (f : α → β) (e : PyError) :
    (f <$> (Except.error e : Except PyError α)) = Except.error e := rfl

/-- C1: for every input dataframe, `plot_choice_shares` with `friday=True`
renders with the palette C0, C2, C1 and a 3-column legend, with
`friday=False` with the palette C0, C1 and a 2-column legend; and the flag
changes nothing about the aggregated bar data. -/
theorem plot_choice_shares_friday_palette :
    ∀ df : DataFrame,
      (∀ fig, plot_choice_shares df true = .ok fig →
        fig.color = ["C0", "C2", "C1"] ∧ fig.legendNcol = 3) ∧
      (∀ fig, plot_choice_shares df false = .ok fig →
        fig.color = ["C0", "C1"] ∧ fig.legendNcol = 2) ∧
      (plot_choice_shares df true).map ChoiceSharesFig.bars
        = (plot_choice_shares df false).map ChoiceSharesFig.bars := by
  intro df
  cases h : choiceSharesTable df "Period" "Choice" with
  | error e => simp [plot_choice_shares, h, Except.map]
  | ok t =>
    cases h2 : plotBarTbl t with
    | error e => simp [plot_choice_shares, h, h2, Except.map]
    | ok t2 =>
      refine ⟨?_, ?_, ?_⟩
      · intro fig hfig
        simp [plot_choice_shares, h, h2] at hfig
        cases hfig
        exact ⟨rfl, rfl⟩
      · intro fig hfig
        simp [plot_choice_shares, h, h2] at hfig
        cases hfig
        exact ⟨rfl, rfl⟩
      · simp [plot_choice_shares, h, h2, Except.map]

/-- Witness for the C1 theorem at the concrete frame `df0`. -/
theorem plot_choice_shares_friday_palette_witness :
    plot_choice_shares df0 true = .ok c1figT ∧
    c1figT.color = ["C0", "C2", "C1"] ∧ c1figT.legendNcol = 3 := by
  have h := plot_choice_shares_friday_palette df0
  exact ⟨rfl, (h.1 c1figT rfl).1, (h.1 c1figT rfl).2⟩

/-- C4: every dataframe-taking plotting function leaves the caller-visible
state of the input frame after the call equal to the frame passed in; no
row, column or cell is created, mutated or destroyed. -/
theorem plot_functions_leave_df_unchanged :
    ∀ (df : DataFrame) (friday : Bool),
      plot_choice_shares_dfAfter df friday = df ∧
      plot_choice_prob_dfAfter df = df ∧
      plot_choice_prob_and_exp_level_dfAfter df = df ∧
      plot_fishing_grounds_dfAfter df = df := by
  intro df friday
  exact ⟨rfl, rfl, rfl, rfl⟩

/-- C8: for every argument other than "1994" and "1997", `plot_choices_kw`
raises `UnboundLocalError` (the loop header reads the unassigned local
`models`) before any file is read. -/
theorem plot_choices_kw_unbound_local :
    ∀ (ex : String) (fs : String → Option WideDF) (gather : Nat → List (String × String)),
      ex ≠ "1994" → ex ≠ "1997" →
      plot_choices_kw ex fs gather = .error (.unboundLocalError "models") ∧
      kwReads ex fs = [] := by
  intro ex fs gather h1 h2
  have hs : kwSetup ex = none := by simp [kwSetup, h1, h2]
  rw [plot_choices_kw, kwReads, hs]
  exact ⟨rfl, rfl⟩

/-- Witness for the C8 theorem at the concrete argument "1998". -/
theorem plot_choices_kw_unbound_local_witness :
    plot_choices_kw "1998" fsNone gather0 = .error (.unboundLocalError "models") ∧
    kwReads "1998" fsNone = [] :=
  plot_choices_kw_unbound_local "1998" fsNone gather0 (by decide) (by decide)

theorem kwReadsGo_mem :
    ∀ (fs : String → Option WideDF) (ms : List String) (p : String),
      p ∈ kwReadsGo fs ms → ∃ m, m ∈ ms ∧ p = modelPath m := by
  intro fs ms
  induction ms with
  | nil => intro p hp; simp [kwReadsGo] at hp
  | cons m rest ih =>
    intro p hp
    rw [kwReadsGo] at hp
    rcases List.mem_cons.mp hp with h | h
    · exact ⟨m, List.mem_cons_self m rest, h⟩
    · by_cases hc : (fs (modelPath m)).isSome
      · rw [if_pos hc] at h
        obtain ⟨m₁, hm₁, hp₁⟩ := ih p h
        exact ⟨m₁, List.mem_cons_of_mem m hm₁, hp₁⟩
      · rw [if_neg hc] at h
        simp at h

/-- C2: `plot_choices_kw` and `plot_kw_97_comparison` are the only
functions that read files; every path they read is
`data/choices_` ++ model ++ `.pkl` for a model of their model lists, and the
four dataframe-taking functions read no file. -/
theorem module_file_reads :
    (∀ m : String, modelPath m = "data/choices_" ++ m ++ ".pkl") ∧
    (∀ (ex : String) (fs : String → Option WideDF) (p : String), p ∈ kwReads ex fs →
      ∃ n models m, kwSetup ex = some (n, models) ∧ m ∈ models ∧ p = modelPath m) ∧
    (∀ (fs : String → Option WideDF) (p : String), p ∈ kw97Reads fs →
      ∃ m, m ∈ kw97Models ∧ p = modelPath m) ∧
    (∀ (df : DataFrame) (friday : Bool), plot_choice_shares_reads df friday = []) ∧
    (∀ df : DataFrame, plot_choice_prob_reads df = []) ∧
    (∀ df : DataFrame, plot_choice_prob_and_exp_level_reads df = []) ∧
    (∀ df : DataFrame, plot_fishing_grounds_reads df = []) := by
  refine ⟨fun m => rfl, ?_, ?_, fun df friday => rfl, fun df => rfl, fun df => rfl, fun df => rfl⟩
  · intro ex fs p hp
    cases hs : kwSetup ex with
    | none => rw [kwReads, hs] at hp; simp at hp
    | some pr =>
      obtain ⟨n, models⟩ := pr
      rw [kwReads, hs] at hp
      obtain ⟨m, hm, hpm⟩ := kwReadsGo_mem fs models p hp
      exact ⟨n, models, m, rfl, hm, hpm⟩
  · intro fs p hp
    exact kwReadsGo_mem fs kw97Models p hp

/-- Witness for the C2 theorem at concrete inputs. -/
theorem module_file_reads_witness :
    (modelPath "kw_94_one" = "data/choices_" ++ "kw_94_one" ++ ".pkl") ∧
    (∃ n models m, kwSetup "1994" = some (n, models) ∧ m ∈ models ∧
      modelPath "kw_94_one" = modelPath m) ∧
    plot_choice_shares_reads df0 true = [] := by
  have h := module_file_reads
  exact ⟨h.1 "kw_94_one",
    h.2.1 "1994" fsNone (modelPath "kw_94_one") (by decide), h.2.2.2.1 df0 true⟩

theorem kwReadsGo_all :
    ∀ (fs : String → Option WideDF) (ms : List String),
      (∀ m ∈ ms, (fs (modelPath m)).isSome) → kwReadsGo fs ms = ms.map modelPath := by
  intro fs ms
  induction ms with
  | nil => intro _; rfl
  | cons m rest ih =>
    intro h
    rw [kwReadsGo, if_pos (h m (List.mem_cons_self m rest))]
    rw [ih (fun m₁ hm₁ => h m₁ (List.mem_cons_of_mem m hm₁))]
    rfl

theorem kwLoop_models :
    ∀ (fs : String → Option WideDF) (gather : Nat → List (String × String))
      (nAxes : Nat) (ms : List String) (i : Nat),
      (∀ m ∈ ms, (fs (modelPath m)).isSome) →
      ∃ ps, kwLoop fs gather nAxes i ms = .ok ps ∧ ps.map KwPanel.model = ms := by
  intro fs gather nAxes ms
  induction ms with
  | nil => intro i _; exact ⟨[], rfl, rfl⟩
  | cons m rest ih =>
    intro i h
    obtain ⟨w, hw⟩ := Option.isSome_iff_exists.mp (h m (List.mem_cons_self m rest))
    obtain ⟨ps, hps, hmap⟩ := ih (i + 1) (fun m₁ hm₁ => h m₁ (List.mem_cons_of_mem m hm₁))
    refine ⟨kwPanelOf nAxes (gather i) m w :: ps, ?_, ?_⟩
    · rw [kwLoop]
      simp [readPickle, hw, hps]
    · simp [hmap, kwPanelOf]

/-- C3: `plot_choices_kw("1994")` loads and plots exactly the models
kw_94_one, kw_94_two, kw_94_three on three subplots, and
`plot_choices_kw("1997")` exactly kw_97_basic, kw_97_extended on two. -/
theorem plot_choices_kw_example_models :
    ∀ (fs : String → Option WideDF) (gather : Nat → List (String × String)),
      ((∀ m ∈ ["kw_94_one", "kw_94_two", "kw_94_three"], (fs (modelPath m)).isSome) →
        (plot_choices_kw "1994" fs gather).map (fun f => (f.nAxes, f.panels.map KwPanel.model))
          = .ok (3, ["kw_94_one", "kw_94_two", "kw_94_three"]) ∧
        kwReads "1994" fs = ["kw_94_one", "kw_94_two", "kw_94_three"].map modelPath) ∧
      ((∀ m ∈ ["kw_97_basic", "kw_97_extended"], (fs (modelPath m)).isSome) →
        (plot_choices_kw "1997" fs gather).map (fun f => (f.nAxes, f.panels.map KwPanel.model))
          = .ok (2, ["kw_97_basic", "kw_97_extended"]) ∧
        kwReads "1997" fs = ["kw_97_basic", "kw_97_extended"].map modelPath) := by
  intro fs gather
  constructor
  · intro h
    obtain ⟨ps, hps, hmap⟩ := kwLoop_models fs gather 3 ["kw_94_one", "kw_94_two", "kw_94_three"] 0 h
    have hs : kwSetup "1994" = some (3, ["kw_94_one", "kw_94_two", "kw_94_three"]) := rfl
    constructor
    · rw [plot_choices_kw, hs]
      simp [hps, Except.map, hmap]
    · rw [kwReads, hs]
      exact kwReadsGo_all fs _ h
  · intro h
    obtain ⟨ps, hps, hmap⟩ := kwLoop_models fs gather 2 ["kw_97_basic", "kw_97_extended"] 0 h
    have hs : kwSetup "1997" = some (2, ["kw_97_basic", "kw_97_extended"]) := rfl
    constructor
    · rw [plot_choices_kw, hs]
      simp [hps, Except.map, hmap]
    · rw [kwReads, hs]
      exact kwReadsGo_all fs _ h

/-- Witness for the C3 theorem on a file system holding every pickle. -/
theorem plot_choices_kw_example_models_witness :
    (plot_choices_kw "1994" fsAll gather0).map (fun f => (f.nAxes, f.panels.map KwPanel.model))
      = .ok (3, ["kw_94_one", "kw_94_two", "kw_94_three"]) ∧
    kwReads "1994" fsAll = ["kw_94_one", "kw_94_two", "kw_94_three"].map modelPath :=
  (plot_choices_kw_example_models fsAll gather0).1 (by decide)

theorem kwLoop_error_iff :
    ∀ (fs : String → Option WideDF) (gather : Nat → List (String × String))
      (nAxes : Nat) (ms : List String) (i : Nat) (e : PyError),
      kwLoop fs gather nAxes i ms = .error e ↔ readsErr fs ms = some e := by
  intro fs gather nAxes ms
  induction ms with
  | nil => intro i e; rw [kwLoop, readsErr]; simp
  | cons m rest ih =>
    intro i e
    rw [kwLoop, readsErr, readPickle]
    cases hm : fs (modelPath m) with
    | none => simp
    | some w =>
      simp only
      cases hr : kwLoop fs gather nAxes (i + 1) rest with
      | error e₁ =>
        simp only [except_ok_bind, except_error_bind]
        rw [← ih (i + 1) e, hr]
      | ok ps =>
        cases hre : readsErr fs rest with
        | none => simp [hr, hre]
        | some e₁ =>
          exfalso
          have := (ih (i + 1) e₁).mpr hre
          rw [hr] at this
          exact Except.noConfusion this

theorem choices_kw_error_iff :
    ∀ (ex : String) (fs : String → Option WideDF) (gather : Nat → List (String × String))
      (e : PyError), ex = "1994" ∨ ex = "1997" →
      (plot_choices_kw ex fs gather = .error e ↔ plot_choices_kw_libErr ex fs = some e) := by
  intro ex fs gather e hex
  rcases hex with hex | hex <;> subst hex
  · have hs : kwSetup "1994" = some (3, ["kw_94_one", "kw_94_two", "kw_94_three"]) := rfl
    rw [plot_choices_kw, plot_choices_kw_libErr, hs]
    simp only
    cases hr : kwLoop fs gather 3 0 ["kw_94_one", "kw_94_two", "kw_94_three"] with
    | error e₁ =>
      simp only [except_ok_bind, except_error_bind]
      rw [← kwLoop_error_iff fs gather 3 ["kw_94_one", "kw_94_two", "kw_94_three"] 0 e, hr]
      simp
    | ok ps =>
      cases hre : readsErr fs ["kw_94_one", "kw_94_two", "kw_94_three"] with
      | none => simp [hre]
      | some e₁ =>
        exfalso
        have := (kwLoop_error_iff fs gather 3 _ 0 e₁).mpr hre
        rw [hr] at this
        exact Except.noConfusion this
  · have hs : kwSetup "1997" = some (2, ["kw_97_basic", "kw_97_extended"]) := rfl
    rw [plot_choices_kw, plot_choices_kw_libErr, hs]
    simp only
    cases hr : kwLoop fs gather 2 0 ["kw_97_basic", "kw_97_extended"] with
    | error e₁ =>
      simp only [except_ok_bind, except_error_bind]
      rw [← kwLoop_error_iff fs gather 2 ["kw_97_basic", "kw_97_extended"] 0 e, hr]
      simp
    | ok ps =>
      cases hre : readsErr fs ["kw_97_basic", "kw_97_extended"] with
      | none => simp [hre]
      | some e₁ =>
        exfalso
        have := (kwLoop_error_iff fs gather 2 _ 0 e₁).mpr hre
        rw [hr] at this
        exact Except.noConfusion this

theorem shares_error_iff :
    ∀ (df : DataFrame) (friday : Bool) (e : PyError),
      plot_choice_shares df friday = .error e ↔ plot_choice_shares_libErr df = some e := by
  intro df friday e
  rw [plot_choice_shares, plot_choice_shares_libErr, barPipelineErr]
  cases h : choiceSharesTable df "Period" "Choice" with
  | error e₁ => simp
  | ok t =>
    cases h2 : plotBarTbl t with
    | error e₁ => simp [h2, errOpt]
    | ok t2 => simp [h2, errOpt]

theorem prob_error_iff :
    ∀ (df : DataFrame) (e : PyError),
      plot_choice_prob df = .error e ↔ plot_choice_prob_libErr df = some e := by
  intro df e
  rw [plot_choice_prob, plot_choice_prob_libErr, barPipelineErr]
  cases h : choiceSharesTable df "Period" "Choice" with
  | error e₁ => simp
  | ok t =>
    cases h2 : plotBarTbl t with
    | error e₁ => simp [h2, errOpt]
    | ok t2 => simp [h2, errOpt]

theorem probexp_error_iff :
    ∀ (df : DataFrame) (e : PyError),
      plot_choice_prob_and_exp_level df = .error e ↔
        plot_choice_prob_and_exp_level_libErr df = some e := by
  intro df e
  simp only [plot_choice_prob_and_exp_level, plot_choice_prob_and_exp_level_libErr,
    barPipelineErr]
  cases h : choiceSharesTable df "Period" "Choice" with
  | error e₁ => simp
  | ok t0 =>
    cases h2 : plotBarTbl t0 with
    | error e₁ => simp [h2, errOpt]
    | ok t0b =>
      simp only [h2, except_ok_bind, errOpt]
      cases h3 : choiceSharesTable df "Period" "Experience_Fishing" with
      | error e₁ => simp
      | ok t1 =>
        cases h4 : plotBarTbl t1 with
        | error e₁ => simp [h4, errOpt]
        | ok t1b => simp [h4, errOpt]

theorem fishing_error_iff :
    ∀ (df : DataFrame) (e : PyError),
      plot_fishing_grounds df = .error e ↔ plot_fishing_grounds_libErr df = some e := by
  intro df e
  simp only [plot_fishing_grounds, plot_fishing_grounds_libErr, fishPanel,
    fishPanelErr, barPipelineErr]
  cases hq0 : query df "Fishing_Grounds" "rich" with
  | error e₁ => simp
  | ok sub0 =>
    simp only [except_ok_bind]
    cases h0 : choiceSharesTable sub0 "Period" "Choice" with
    | error e₁ => simp
    | ok t0 =>
      cases h0b : plotBarTbl t0 with
      | error e₁ => simp [h0b, errOpt]
      | ok t0c =>
        simp only [h0b, except_ok_bind, errOpt]
        cases hq1 : query df "Fishing_Grounds" "poor" with
        | error e₁ => simp
        | ok sub1 =>
          simp only [except_ok_bind]
          cases h1 : choiceSharesTable sub1 "Period" "Choice" with
          | error e₁ => simp
          | ok t1 =>
            cases h1b : plotBarTbl t1 with
            | error e₁ => simp [h1b, errOpt]
            | ok t1c => simp [h1b, errOpt]

theorem kw97Panels_error_iff :
    ∀ (od bd ed : WideDF) (l : List (String × String)) (i : Nat) (e : PyError),
      kw97Panels od bd ed i l = .error e ↔ kw97PanelsErr od bd ed l = some e := by
  intro od bd ed l
  induction l with
  | nil => intro i e; rw [kw97Panels, kw97PanelsErr]; simp
  | cons p rest ih =>
    obtain ⟨choice, color⟩ := p
    intro i e
    rw [kw97Panels, kw97PanelsErr]
    cases hco : getCol od choice with
    | error e₁ => simp
    | ok so =>
      simp only [except_ok_bind]
      cases hcb : getCol bd choice with
      | error e₁ => simp
      | ok sb =>
        simp only [except_ok_bind]
        cases hce : getCol ed choice with
        | error e₁ => simp
        | ok se =>
          simp only [except_ok_bind]
          cases hr : kw97Panels od bd ed (i + 1) rest with
          | error e₁ =>
            simp only [except_error_bind]
            rw [← ih (i + 1) e, hr]
          | ok ps =>
            cases hre : kw97PanelsErr od bd ed rest with
            | none => simp [hre]
            | some e₁ =>
              exfalso
              have := (ih (i + 1) e₁).mpr hre
              rw [hr] at this
              exact Except.noConfusion this

theorem kw97_error_iff :
    ∀ (fs : String → Option WideDF) (e : PyError),
      plot_kw_97_comparison fs = .error e ↔ plot_kw_97_comparison_libErr fs = some e := by
  intro fs e
  rw [plot_kw_97_comparison, plot_kw_97_comparison_libErr]
  rw [show readsErr fs kw97Models = (match fs (modelPath "kw_97_obs") with
      | none => some (.fileNotFound (modelPath "kw_97_obs"))
      | some _ => match fs (modelPath "kw_97_basic") with
        | none => some (.fileNotFound (modelPath "kw_97_basic"))
        | some _ => match fs (modelPath "kw_97_extended") with
          | none => some (.fileNotFound (modelPath "kw_97_extended"))
          | some _ => none) from rfl]
  simp only [readPickle]
  cases ho : fs (modelPath "kw_97_obs") with
  | none => simp
  | some od =>
    simp only [except_ok_bind]
    cases hb : fs (modelPath "kw_97_basic") with
    | none => simp
    | some bd =>
      simp only [except_ok_bind]
      cases he : fs (modelPath "kw_97_extended") with
      | none => simp
      | some ed =>
        simp only [except_ok_bind]
        cases hps : kw97Panels od bd ed 0 ((wideCols ed).zip kw97Colors) with
        | error e₁ =>
          simp only [except_error_bind]
          rw [← kw97Panels_error_iff od bd ed ((wideCols ed).zip kw97Colors) 0 e, hps]
          simp
        | ok ps =>
          cases hpe : kw97PanelsErr od bd ed ((wideCols ed).zip kw97Colors) with
          | none => simp [hpe]
          | some e₁ =>
            exfalso
            have := (kw97Panels_error_iff od bd ed ((wideCols ed).zip kw97Colors) 0 e₁).mpr hpe
            rw [hps] at this
            exact Except.noConfusion this

/-- C5 (amended): no function catches or translates an exception — each
function returns an error exactly when, and with exactly the exception
that, its first failing underlying library call raises — except that
`plot_choices_kw` on an argument other than "1994" and "1997" raises
`UnboundLocalError` although no library call ran. -/
theorem no_exception_translation :
    (∀ (df : DataFrame) (friday : Bool) (e : PyError),
      plot_choice_shares df friday = .error e ↔ plot_choice_shares_libErr df = some e) ∧
    (∀ (df : DataFrame) (e : PyError),
      plot_choice_prob df = .error e ↔ plot_choice_prob_libErr df = some e) ∧
    (∀ (df : DataFrame) (e : PyError),
      plot_choice_prob_and_exp_level df = .error e ↔
        plot_choice_prob_and_exp_level_libErr df = some e) ∧
    (∀ (df : DataFrame) (e : PyError),
      plot_fishing_grounds df = .error e ↔ plot_fishing_grounds_libErr df = some e) ∧
    (∀ (fs : String → Option WideDF) (e : PyError),
      plot_kw_97_comparison fs = .error e ↔ plot_kw_97_comparison_libErr fs = some e) ∧
    (∀ (ex : String) (fs : String → Option WideDF)
      (gather : Nat → List (String × String)) (e : PyError),
      ex = "1994" ∨ ex = "1997" →
      (plot_choices_kw ex fs gather = .error e ↔ plot_choices_kw_libErr ex fs = some e)) ∧
    (∀ (ex : String) (fs : String → Option WideDF)
      (gather : Nat → List (String × String)),
      ex ≠ "1994" → ex ≠ "1997" →
      plot_choices_kw ex fs gather = .error (.unboundLocalError "models") ∧
      plot_choices_kw_libErr ex fs = none) := by
  refine ⟨shares_error_iff, prob_error_iff, probexp_error_iff, fishing_error_iff,
    kw97_error_iff, choices_kw_error_iff, ?_⟩
  intro ex fs gather h1 h2
  have hs : kwSetup ex = none := by simp [kwSetup, h1, h2]
  rw [plot_choices_kw, plot_choices_kw_libErr, hs]
  exact ⟨rfl, rfl⟩

/-- Witness for the C5 theorem, instantiating its two conditional parts. -/
theorem no_exception_translation_witness :
    (plot_choices_kw "1994" fsNone gather0
        = .error (.fileNotFound "data/choices_kw_94_one.pkl") ↔
      plot_choices_kw_libErr "1994" fsNone
        = some (.fileNotFound "data/choices_kw_94_one.pkl")) ∧
    (plot_choices_kw "1998" fsNone gather0 = .error (.unboundLocalError "models") ∧
      plot_choices_kw_libErr "1998" fsNone = none) := by
  have h := no_exception_translation
  exact ⟨h.2.2.2.2.2.1 "1994" fsNone gather0
      (.fileNotFound "data/choices_kw_94_one.pkl") (Or.inl rfl),
    h.2.2.2.2.2.2 "1998" fsNone gather0 (by decide) (by decide)⟩

/-- C5 counterexample: `plot_choices_kw("2000")` raises (an
`UnboundLocalError`) although no underlying library call raised, so a
function can raise without any library call raising. -/
theorem plot_choices_kw_raises_without_library_call :
    plot_choices_kw "2000" fsNone gather0 = .error (.unboundLocalError "models") ∧
    plot_choices_kw_libErr "2000" fsNone = none := by
  exact ⟨by decide, by decide⟩

theorem upsert_keys :
    ∀ (d : List (String × String)) (k v : String),
      (upsert d k v).map Prod.fst =
        if k ∈ d.map Prod.fst then d.map Prod.fst else d.map Prod.fst ++ [k] := by
  intro d k v
  induction d with
  | nil => simp [upsert]
  | cons p rest ih =>
    obtain ⟨k₁, v₁⟩ := p
    rw [upsert]
    by_cases hk : k₁ = k
    · subst hk
      simp
    · rw [if_neg hk]
      simp only [List.map_cons, List.mem_cons]
      rw [ih]
      by_cases hmem : k ∈ rest.map Prod.fst
      · rw [if_pos hmem, if_pos (Or.inr hmem)]
      · rw [if_neg hmem, if_neg (fun h => h.elim (fun h₁ => hk h₁.symm) hmem)]
        simp

theorem upsert_alookup :
    ∀ (d : List (String × String)) (k v k₂ : String),
      alookup k₂ (upsert d k v) = if k₂ = k then some v else alookup k₂ d := by
  intro d k v
  induction d with
  | nil => intro k₂; simp [upsert, alookup]
  | cons p rest ih =>
    obtain ⟨k₁, v₁⟩ := p
    intro k₂
    rw [upsert]
    by_cases h1 : k₁ = k
    · subst h1
      rw [if_pos rfl]
      rw [alookup, alookup]
      by_cases h2 : k₂ = k₁
      · rw [if_pos h2, if_pos h2]
      · rw [if_neg h2, if_neg h2, if_neg h2]
    · rw [if_neg h1, alookup, alookup, ih k₂]
      by_cases h2 : k₂ = k₁
      · subst h2
        rw [if_pos rfl, if_pos rfl, if_neg h1]
      · rw [if_neg h2, if_neg h2]

theorem pyFold_keys_nodup :
    ∀ (ps d : List (String × String)), (d.map Prod.fst).Nodup →
      ((ps.foldl (fun d₁ p => upsert d₁ p.1 p.2) d).map Prod.fst).Nodup := by
  intro ps
  induction ps with
  | nil => intro d h; exact h
  | cons p rest ih =>
    intro d h
    rw [List.foldl_cons]
    apply ih
    rw [upsert_keys]
    by_cases hmem : p.1 ∈ d.map Prod.fst
    · rw [if_pos hmem]; exact h
    · rw [if_neg hmem]
      rw [List.nodup_append]
      refine ⟨h, List.nodup_singleton _, ?_⟩
      intro a ha hb
      rw [List.mem_singleton] at hb
      subst hb
      exact hmem ha

theorem pyFold_mem :
    ∀ (ps d : List (String × String)) (k : String),
      k ∈ (ps.foldl (fun d₁ p => upsert d₁ p.1 p.2) d).map Prod.fst ↔
        k ∈ d.map Prod.fst ∨ k ∈ ps.map Prod.fst := by
  intro ps
  induction ps with
  | nil => intro d k; simp
  | cons p rest ih =>
    intro d k
    rw [List.foldl_cons, ih]
    have hup : k ∈ (upsert d p.1 p.2).map Prod.fst ↔ k ∈ d.map Prod.fst ∨ k = p.1 := by
      rw [upsert_keys]
      by_cases hmem : p.1 ∈ d.map Prod.fst
      · rw [if_pos hmem]
        constructor
        · exact fun h => Or.inl h
        · rintro (h | h)
          · exact h
          · exact h ▸ hmem
      · rw [if_neg hmem]
        simp
    rw [hup]
    simp only [List.map_cons, List.mem_cons]
    tauto

theorem alookup_append :
    ∀ (l₁ l₂ : List (String × String)) (k : String),
      alookup k (l₁ ++ l₂) =
        match alookup k l₁ with
        | some v => some v
        | none => alookup k l₂ := by
  intro l₁ l₂ k
  induction l₁ with
  | nil => simp [alookup]
  | cons p rest ih =>
    obtain ⟨k₁, v₁⟩ := p
    rw [List.cons_append, alookup, alookup]
    by_cases h : k = k₁
    · rw [if_pos h, if_pos h]
    · rw [if_neg h, if_neg h, ih]

theorem pyFold_alookup :
    ∀ (ps d : List (String × String)) (k : String),
      alookup k (ps.foldl (fun d₁ p => upsert d₁ p.1 p.2) d) =
        match alookup k ps.reverse with
        | some v => some v
        | none => alookup k d := by
  intro ps
  induction ps with
  | nil => intro d k; simp [alookup]
  | cons p rest ih =>
    intro d k
    rw [List.foldl_cons, ih, List.reverse_cons, alookup_append]
    cases hr : alookup k rest.reverse with
    | some v => rfl
    | none =>
      simp only
      rw [upsert_alookup]
      by_cases h : k = p.1 <;> simp [alookup, h]

theorem kwLoop_panels_shape :
    ∀ (fs : String → Option WideDF) (gather : Nat → List (String × String))
      (nAxes : Nat) (ms : List String) (i : Nat) (ps : List KwPanel),
      kwLoop fs gather nAxes i ms = .ok ps →
      ∀ p ∈ ps, p.legend.entries = pyDictZip p.gathered ∧
        p.legend.ncolumns = (wideCols p.df).length := by
  intro fs gather nAxes ms
  induction ms with
  | nil =>
    intro i ps h
    rw [kwLoop] at h
    cases h
    intro p hp
    simp at hp
  | cons m rest ih =>
    intro i ps h
    rw [kwLoop] at h
    cases hm : fs (modelPath m) with
    | none => rw [readPickle, hm] at h; exact Except.noConfusion h
    | some w =>
      rw [readPickle, hm] at h
      simp only [except_ok_bind] at h
      cases hr : kwLoop fs gather nAxes (i + 1) rest with
      | error e₁ => rw [hr] at h; exact Except.noConfusion h
      | ok ps₁ =>
        rw [hr] at h
        simp only [except_ok_bind] at h
        cases h
        intro p hp
        rcases List.mem_cons.mp hp with hp | hp
        · subst hp
          exact ⟨rfl, rfl⟩
        · exact ih (i + 1) ps₁ hr p hp

/-- C7: the legend of `plot_choices_kw` is de-duplicated — for every
gathered (label, handle) list, `dict(zip(labels, handles))` keeps each
distinct label exactly once with the handle of its last occurrence — and
each legend call uses as many columns as the model dataframe has
columns. -/
theorem legend_dedup_and_ncol :
    (∀ pairs : List (String × String),
      ((pyDictZip pairs).map Prod.fst).Nodup ∧
      (∀ l, l ∈ (pyDictZip pairs).map Prod.fst ↔ l ∈ pairs.map Prod.fst) ∧
      (∀ l, alookup l (pyDictZip pairs) = alookup l pairs.reverse)) ∧
    (∀ (ex : String) (fs : String → Option WideDF) (gather : Nat → List (String × String))
      (fig : KwFig), plot_choices_kw ex fs gather = .ok fig →
      ∀ p ∈ fig.panels, p.legend.entries = pyDictZip p.gathered ∧
        p.legend.ncolumns = (wideCols p.df).length) := by
  constructor
  · intro pairs
    refine ⟨pyFold_keys_nodup pairs [] (by simp), ?_, ?_⟩
    · intro l
      rw [pyDictZip, pyFold_mem]
      simp [alookup]
    · intro l
      rw [pyDictZip, pyFold_alookup]
      cases hr : alookup l pairs.reverse with
      | some v => rfl
      | none => simp [alookup]
  · intro ex fs gather fig h
    rw [plot_choices_kw] at h
    cases hs : kwSetup ex with
    | none => rw [hs] at h; exact Except.noConfusion h
    | some pr =>
      obtain ⟨n, ms⟩ := pr
      rw [hs] at h
      simp only at h
      cases hl : kwLoop fs gather n 0 ms with
      | error e₁ => rw [hl] at h; exact Except.noConfusion h
      | ok ps =>
        rw [hl] at h
        simp only [except_ok_bind] at h
        cases h
        exact kwLoop_panels_shape fs gather n ms 0 ps hl

/-- Witness for the C7 theorem on a gathered list with a repeated label. -/
theorem legend_dedup_and_ncol_witness :
    plot_choices_kw "1997" fsAll gatherW = .ok c7fig ∧
    (∀ p ∈ c7fig.panels, p.legend.entries = pyDictZip p.gathered ∧
      p.legend.ncolumns = (wideCols p.df).length) :=
  ⟨rfl, legend_dedup_and_ncol.2 "1997" fsAll gatherW c7fig rfl⟩

theorem zip_map_fst_take {α β : Type} :
    ∀ (l : List α) (l₂ : List β), (l.zip l₂).map Prod.fst = l.take l₂.length := by
  intro l
  induction l with
  | nil => intro l₂; simp
  | cons a rest ih =>
    intro l₂
    cases l₂ with
    | nil => simp
    | cons b rest₂ => simp [ih]

theorem kw97Panels_ok_choices :
    ∀ (od bd ed : WideDF) (l : List (String × String)) (i : Nat) (ps : List Kw97Panel),
      kw97Panels od bd ed i l = .ok ps → ps.map Kw97Panel.choice = l.map Prod.fst := by
  intro od bd ed l
  induction l with
  | nil =>
    intro i ps h
    rw [kw97Panels] at h
    cases h
    rfl
  | cons p rest ih =>
    obtain ⟨choice, color⟩ := p
    intro i ps h
    rw [kw97Panels] at h
    cases hco : getCol od choice with
    | error e₁ => rw [hco] at h; exact Except.noConfusion h
    | ok so =>
      rw [hco] at h
      simp only [except_ok_bind] at h
      cases hcb : getCol bd choice with
      | error e₁ => rw [hcb] at h; exact Except.noConfusion h
      | ok sb =>
        rw [hcb] at h
        simp only [except_ok_bind] at h
        cases hce : getCol ed choice with
        | error e₁ => rw [hce] at h; exact Except.noConfusion h
        | ok se =>
          rw [hce] at h
          simp only [except_ok_bind] at h
          cases hr : kw97Panels od bd ed (i + 1) rest with
          | error e₁ => rw [hr] at h; exact Except.noConfusion h
          | ok ps₁ =>
            rw [hr] at h
            simp only [except_ok_bind] at h
            cases h
            simp only [List.map_cons]
            rw [ih (i + 1) ps₁ hr]
            rfl

/-- C9: `plot_kw_97_comparison` takes its outcome columns from the last
model loaded (kw_97_extended), pairs them with the fixed 5-color list so
at most the first 5 columns are plotted, and always deletes the sixth of
the six axes. -/
theorem kw_97_comparison_layout :
    ∀ (fs : String → Option WideDF) (dExt : WideDF) (fig : Kw97Fig),
      fs (modelPath "kw_97_extended") = some dExt →
      plot_kw_97_comparison fs = .ok fig →
      fig.panels.map Kw97Panel.choice = (wideCols dExt).take 5 ∧
      fig.panels.length = min (wideCols dExt).length 5 ∧
      fig.deletedAxes = [5] ∧ fig.nAxes = 6 ∧ fig.legendAxIndex = 4 := by
  intro fs dExt fig hext h
  rw [plot_kw_97_comparison] at h
  cases ho : fs (modelPath "kw_97_obs") with
  | none => rw [readPickle, ho] at h; exact Except.noConfusion h
  | some od =>
    rw [readPickle, ho] at h
    simp only [except_ok_bind] at h
    cases hb : fs (modelPath "kw_97_basic") with
    | none => rw [readPickle, hb] at h; exact Except.noConfusion h
    | some bd =>
      rw [readPickle, hb] at h
      simp only [except_ok_bind] at h
      rw [readPickle, hext] at h
      simp only [except_ok_bind] at h
      cases hps : kw97Panels od bd dExt 0 ((wideCols dExt).zip kw97Colors) with
      | error e₁ => rw [hps] at h; exact Except.noConfusion h
      | ok ps =>
        rw [hps] at h
        simp only [except_ok_bind] at h
        cases h
        have hch := kw97Panels_ok_choices od bd dExt ((wideCols dExt).zip kw97Colors) 0 ps hps
        refine ⟨?_, ?_, rfl, rfl, rfl⟩
        · rw [hch, zip_map_fst_take]
          rfl
        · have : (ps.map Kw97Panel.choice).length = ((wideCols dExt).zip kw97Colors).length := by
            rw [hch, List.length_map]
          rw [List.length_map] at this
          rw [this, List.length_zip]
          rfl

/-- Witness for the C9 theorem on a file system holding `wSmall`
everywhere. -/
theorem kw_97_comparison_layout_witness :
    plot_kw_97_comparison fsAll = .ok c9fig ∧
    (c9fig.panels.map Kw97Panel.choice = (wideCols wSmall).take 5 ∧
     c9fig.panels.length = min (wideCols wSmall).length 5 ∧
     c9fig.deletedAxes = [5] ∧ c9fig.nAxes = 6 ∧ c9fig.legendAxIndex = 4) :=
  ⟨rfl, kw_97_comparison_layout fsAll wSmall c9fig rfl rfl⟩

theorem query_append_excluded :
    ∀ (df : DataFrame) (r : List (String × String)) (col v : String),
      cell r col ≠ v →
      query ⟨df.cols, df.rows ++ [r]⟩ col v = query df col v := by
  intro df r col v hne
  rw [query, query]
  by_cases hc : col ∈ df.cols
  · rw [if_pos hc, if_pos hc]
    have hfil : List.filter (fun r₁ => cell r₁ col == v) (df.rows ++ [r])
        = List.filter (fun r₁ => cell r₁ col == v) df.rows := by
      rw [List.filter_append]
      have : List.filter (fun r₁ => cell r₁ col == v) [r] = [] := by
        have hb : (cell r col == v) = false := beq_eq_false_iff_ne.mpr hne
        simp [List.filter, hb]
      rw [this, List.append_nil]
    rw [hfil]
  · rw [if_neg hc, if_neg hc]

theorem fishPanel_title :
    ∀ (df : DataFrame) (observable : String) (p : FishPanel),
      fishPanel df observable = .ok p → p.title = "Fishing grounds: " ++ observable := by
  intro df observable p h
  rw [fishPanel] at h
  cases hq : query df "Fishing_Grounds" observable with
  | error e₁ => rw [hq] at h; exact Except.noConfusion h
  | ok sub =>
    rw [hq] at h
    simp only [except_ok_bind] at h
    cases ht : choiceSharesTable sub "Period" "Choice" with
    | error e₁ => rw [ht] at h; exact Except.noConfusion h
    | ok t =>
      rw [ht] at h
      simp only [except_ok_bind] at h
      cases hp : plotBarTbl t with
      | error e₁ => rw [hp] at h; exact Except.noConfusion h
      | ok t₂ =>
        rw [hp] at h
        simp only [except_ok_bind] at h
        cases h
        rfl

/-- C10: `plot_fishing_grounds` draws exactly two subplots, rich then
poor, and a row whose `Fishing_Grounds` value is neither rich nor poor is
silently excluded from both subplots (appending it changes nothing, and
causes neither an error nor a third subplot). -/
theorem fishing_grounds_two_panels :
    ∀ (df : DataFrame) (r : List (String × String)),
      cell r "Fishing_Grounds" ≠ "rich" → cell r "Fishing_Grounds" ≠ "poor" →
      plot_fishing_grounds ⟨df.cols, df.rows ++ [r]⟩ = plot_fishing_grounds df ∧
      (∀ fig, plot_fishing_grounds df = .ok fig → fig.nAxes = 2 ∧
        fig.panels.map FishPanel.title = ["Fishing grounds: rich", "Fishing grounds: poor"]) := by
  intro df r hrich hpoor
  constructor
  · have h1 : fishPanel ⟨df.cols, df.rows ++ [r]⟩ "rich" = fishPanel df "rich" := by
      rw [fishPanel, fishPanel, query_append_excluded df r "Fishing_Grounds" "rich" hrich]
    have h2 : fishPanel ⟨df.cols, df.rows ++ [r]⟩ "poor" = fishPanel df "poor" := by
      rw [fishPanel, fishPanel, query_append_excluded df r "Fishing_Grounds" "poor" hpoor]
    rw [plot_fishing_grounds, plot_fishing_grounds, h1, h2]
  · intro fig h
    rw [plot_fishing_grounds] at h
    cases hp0 : fishPanel df "rich" with
    | error e₁ => rw [hp0] at h; exact Except.noConfusion h
    | ok p0 =>
      rw [hp0] at h
      simp only [except_ok_bind] at h
      cases hp1 : fishPanel df "poor" with
      | error e₁ => rw [hp1] at h; exact Except.noConfusion h
      | ok p1 =>
        rw [hp1] at h
        simp only [except_ok_bind] at h
        cases h
        refine ⟨rfl, ?_⟩
        simp only [List.map_cons, List.map_nil]
        rw [fishPanel_title df "rich" p0 hp0, fishPanel_title df "poor" p1 hp1]
        rfl

/-- Witness for the C10 theorem at `dfFish` with an extra lake row. -/
theorem fishing_grounds_two_panels_witness :
    plot_fishing_grounds ⟨dfFish.cols, dfFish.rows ++ [rowLake]⟩
      = plot_fishing_grounds dfFish ∧
    (∀ fig, plot_fishing_grounds dfFish = .ok fig → fig.nAxes = 2 ∧
      fig.panels.map FishPanel.title
        = ["Fishing grounds: rich", "Fishing grounds: poor"]) :=
  fishing_grounds_two_panels dfFish rowLake (by decide) (by decide)

theorem alookup_map_pair :
    ∀ (l : List String) (f : String → ℚ) (c : String),
      alookup c (l.map (fun x => (x, f x))) = if c ∈ l then some (f c) else none := by
  intro l f c
  induction l with
  | nil => simp [alookup]
  | cons x rest ih =>
    rw [List.map_cons, alookup]
    by_cases h : c = x
    · subst h
      simp
    · rw [if_neg h, ih]
      by_cases hm : c ∈ rest
      · rw [if_pos hm, if_pos (List.mem_cons_of_mem x hm)]
      · rw [if_neg hm, if_neg (fun hmem => (List.mem_cons.mp hmem).elim h hm)]

theorem countOf_eq_zero_of_not_mem :
    ∀ (vals : List String) (c : String), c ∉ vals → countOf c vals = 0 := by
  intro vals c
  induction vals with
  | nil => intro _; rfl
  | cons x rest ih =>
    intro h
    rw [countOf, ih (fun hm => h (List.mem_cons_of_mem x hm)),
      if_neg (fun he => h (List.mem_cons.mpr (Or.inl he.symm)))]

theorem filterMap_if_mem :
    ∀ (l : List String) (P : String → Prop) [DecidablePred P] (f : String → ℚ),
      l.filterMap (fun c => if P c then some (f c) else none)
        = (l.filter (fun c => decide (P c))).map f := by
  intro l P hP f
  induction l with
  | nil => rfl
  | cons x rest ih =>
    rw [List.filterMap_cons, List.filter_cons]
    by_cases h : P x <;> simp [h, ih]

theorem sum_filter_of_zero :
    ∀ (l : List String) (P : String → Prop) [DecidablePred P] (f : String → ℚ),
      (∀ c ∈ l, ¬P c → f c = 0) →
      (((l.filter (fun c => decide (P c))).map f).sum = (l.map f).sum) := by
  intro l P hP f
  induction l with
  | nil => intro _; rfl
  | cons x rest ih =>
    intro h
    rw [List.filter_cons]
    have hih := ih (fun c hc => h c (List.mem_cons_of_mem x hc))
    by_cases hx : P x
    · simp [hx, hih]
    · have hz := h x (List.mem_cons_self x rest) hx
      simp [hx, hih, hz]

theorem sum_map_div :
    ∀ (l : List String) (f : String → ℚ) (d : ℚ),
      (l.map (fun c => f c / d)).sum = (l.map f).sum / d := by
  intro l f d
  induction l with
  | nil => simp
  | cons x rest ih =>
    rw [List.map_cons, List.map_cons, List.sum_cons, List.sum_cons, ih, add_div]

theorem sum_ite_eq_zero :
    ∀ (L : List String) (x : String), (∀ c ∈ L, x ≠ c) →
      (L.map (fun c => if x = c then (1 : ℚ) else 0)).sum = 0 := by
  intro L x
  induction L with
  | nil => intro _; rfl
  | cons y rest ih =>
    intro h
    rw [List.map_cons, List.sum_cons, if_neg (h y (List.mem_cons_self y rest)),
      ih (fun c hc => h c (List.mem_cons_of_mem y hc)), zero_add]

theorem sum_ite_eq_one :
    ∀ (L : List String) (x : String), L.Nodup → x ∈ L →
      (L.map (fun c => if x = c then (1 : ℚ) else 0)).sum = 1 := by
  intro L x
  induction L with
  | nil => intro _ h; exact absurd h (List.not_mem_nil x)
  | cons y rest ih =>
    intro hnd hm
    obtain ⟨hy, hrest⟩ := List.nodup_cons.mp hnd
    rw [List.map_cons, List.sum_cons]
    rcases List.mem_cons.mp hm with h | h
    · subst h
      rw [if_pos rfl, sum_ite_eq_zero rest x
        (fun c hc he => hy (by rw [he]; exact hc)), add_zero]
    · rw [if_neg (fun he => hy (by rw [← he]; exact h)), ih hrest h, zero_add]

theorem sum_map_add_pointwise :
    ∀ (L : List String) (f g : String → ℚ),
      (L.map (fun c => f c + g c)).sum = (L.map f).sum + (L.map g).sum := by
  intro L f g
  induction L with
  | nil => simp
  | cons x rest ih =>
    rw [List.map_cons, List.map_cons, List.map_cons, List.sum_cons, List.sum_cons,
      List.sum_cons, ih]
    ring

theorem sum_countOf :
    ∀ (vals L : List String), L.Nodup → (∀ x ∈ vals, x ∈ L) →
      (L.map (fun c => (countOf c vals : ℚ))).sum = vals.length := by
  intro vals
  induction vals with
  | nil =>
    intro L _ _
    simp [countOf]
  | cons x xs ih =>
    intro L hnd hsub
    have hcast : ∀ c : String, ((countOf c (x :: xs) : ℚ))
        = (countOf c xs : ℚ) + if x = c then (1 : ℚ) else 0 := by
      intro c
      rw [countOf, Nat.cast_add]
      congr 1
      split <;> simp
    calc (L.map (fun c => (countOf c (x :: xs) : ℚ))).sum
        = (L.map (fun c => (countOf c xs : ℚ) + if x = c then (1 : ℚ) else 0)).sum := by
          exact congrArg List.sum (List.map_congr_left (fun c _ => hcast c))
      _ = (L.map (fun c => (countOf c xs : ℚ))).sum
            + (L.map (fun c => if x = c then (1 : ℚ) else 0)).sum := by
          rw [sum_map_add_pointwise]
      _ = (xs.length : ℚ) + 1 := by
          rw [ih L hnd (fun y hy => hsub y (List.mem_cons_of_mem x hy)),
            sum_ite_eq_one L x hnd (hsub x (List.mem_cons_self x xs))]
      _ = ((x :: xs).length : ℚ) := by
          rw [List.length_cons]
          push_cast
          ring

theorem groupShares_map_fst :
    ∀ vals : List String, (groupShares vals).map Prod.fst = vals.dedup := by
  intro vals
  rw [groupShares, List.map_map]
  exact List.map_id _

theorem unstack_row_props :
    ∀ (rows : List (List (String × String))) (key col k : String)
      (row : List (String × Option ℚ)),
      (k, row) ∈ (unstackTbl (valueCountsNorm rows key col)).2 →
      ((row.filterMap Prod.snd).sum = 1 ∧
       ∀ c q, (c, some q) ∈ row →
         q = (countOf c (colValsIn (groupOf rows key k) col) : ℚ)
               / ((colValsIn (groupOf rows key k) col).length : ℚ)) := by
  intro rows key col k row hmem
  rw [unstackTbl] at hmem
  simp only at hmem
  obtain ⟨p, hp, heq⟩ := List.mem_map.mp hmem
  rw [valueCountsNorm] at hp
  obtain ⟨k₁, hk₁, hpk⟩ := List.mem_map.mp hp
  subst hpk
  injection heq with h1 h2
  subst h1
  subst h2
  dsimp only
  set vals := colValsIn (groupOf rows key k₁) col with hv
  set cats := (List.map (fun p => List.map Prod.fst p.2)
    (valueCountsNorm rows key col)).flatten.dedup with hcats
  have hsub : ∀ x ∈ vals, x ∈ cats := by
    intro x hx
    apply List.mem_dedup.mpr
    apply List.mem_flatten.mpr
    refine ⟨(groupShares vals).map Prod.fst, ?_, ?_⟩
    · exact List.mem_map_of_mem (fun p => List.map Prod.fst p.2) hp
    · rw [groupShares_map_fst]
      exact List.mem_dedup.mpr hx
  have hnodupcats : cats.Nodup := List.nodup_dedup _
  have hne : vals.length ≠ 0 := by
    obtain ⟨r, hr, hcell⟩ := List.mem_map.mp (List.mem_dedup.mp hk₁)
    have hrg : r ∈ groupOf rows key k₁ :=
      List.mem_filter.mpr ⟨hr, by rw [beq_iff_eq]; exact hcell⟩
    have hglen : vals.length = (groupOf rows key k₁).length := by
      rw [hv, colValsIn, List.length_map]
    rw [hglen]
    exact fun h0 => (List.ne_nil_of_mem hrg) (List.length_eq_zero.mp h0)
  have hcast : (vals.length : ℚ) ≠ 0 := Nat.cast_ne_zero.mpr hne
  have halook : ∀ c, alookup c (groupShares vals)
      = if c ∈ vals.dedup then some ((countOf c vals : ℚ) / (vals.length : ℚ)) else none := by
    intro c
    rw [groupShares]
    exact alookup_map_pair vals.dedup _ c
  have hrw : List.filterMap Prod.snd (cats.map (fun c => (c, alookup c (groupShares vals))))
      = (cats.filter (fun c => decide (c ∈ vals.dedup))).map
          (fun c => (countOf c vals : ℚ) / (vals.length : ℚ)) := by
    rw [List.filterMap_map]
    have hcomp : (Prod.snd ∘ fun c => (c, alookup c (groupShares vals)))
        = fun c => alookup c (groupShares vals) := rfl
    rw [hcomp, List.filterMap_congr (fun c _ => halook c)]
    exact filterMap_if_mem cats (fun c => c ∈ vals.dedup) _
  constructor
  · rw [hrw]
    have hzero : ∀ c ∈ cats, ¬(c ∈ vals.dedup) →
        (countOf c vals : ℚ) / (vals.length : ℚ) = 0 := by
      intro c _ hnm
      rw [countOf_eq_zero_of_not_mem vals c (fun hm => hnm (List.mem_dedup.mpr hm))]
      rw [Nat.cast_zero, zero_div]
    rw [sum_filter_of_zero cats (fun c => c ∈ vals.dedup) _ hzero, sum_map_div,
      sum_countOf vals cats hnodupcats hsub, div_self hcast]
  · intro c q hcq
    obtain ⟨c₁, hc₁, he⟩ := List.mem_map.mp hcq
    injection he with he1 he2
    subst he1
    rw [halook] at he2
    by_cases hm : c₁ ∈ vals.dedup
    · rw [if_pos hm] at he2
      exact (Option.some.injEq _ _ ▸ he2 : _ = q).symm
    · rw [if_neg hm] at he2
      exact Option.noConfusion he2

theorem plotBarTbl_ok_eq :
    ∀ (t t₂ : UnstackTbl), plotBarTbl t = .ok t₂ → t₂ = t := by
  intro t t₂ h
  rw [plotBarTbl] at h
  by_cases he : t.2.isEmpty
  · rw [if_pos he] at h
    exact Except.noConfusion h
  · rw [if_neg he] at h
    cases h
    rfl

theorem choiceSharesTable_ok_eq :
    ∀ (df : DataFrame) (key col : String) (tbl : UnstackTbl),
      choiceSharesTable df key col = .ok tbl →
      tbl = unstackTbl (valueCountsNorm df.rows key col) := by
  intro df key col tbl h
  rw [choiceSharesTable] at h
  by_cases hk : key ∈ df.cols
  · rw [if_pos hk] at h
    by_cases hc : col ∈ df.cols
    · rw [if_pos hc] at h
      cases h
      rfl
    · rw [if_neg hc] at h
      exact Except.noConfusion h
  · rw [if_neg hk] at h
    exact Except.noConfusion h

theorem fishPanel_bars :
    ∀ (df : DataFrame) (observable : String) (p : FishPanel),
      fishPanel df observable = .ok p →
      ∃ sub, query df "Fishing_Grounds" observable = .ok sub ∧
        choiceSharesTable sub "Period" "Choice" = .ok p.bars := by
  intro df observable p h
  rw [fishPanel] at h
  cases hq : query df "Fishing_Grounds" observable with
  | error e₁ => rw [hq] at h; exact Except.noConfusion h
  | ok sub =>
    rw [hq] at h
    simp only [except_ok_bind] at h
    cases ht : choiceSharesTable sub "Period" "Choice" with
    | error e₁ => rw [ht] at h; exact Except.noConfusion h
    | ok t =>
      rw [ht] at h
      simp only [except_ok_bind] at h
      cases hp : plotBarTbl t with
      | error e₁ => rw [hp] at h; exact Except.noConfusion h
      | ok t₂ =>
        rw [hp] at h
        simp only [except_ok_bind] at h
        cases h
        refine ⟨sub, rfl, ?_⟩
        dsimp only
        rw [plotBarTbl_ok_eq t t₂ hp]
        exact ht

/-- C6: the per-period aggregation used by `plot_choice_shares`,
`plot_choice_prob`, `plot_choice_prob_and_exp_level` and
`plot_fishing_grounds` computes normalized frequencies: every plotted
share of a period equals the count of the category divided by the row
count of that period, and the shares of a period sum to 1; each of the
four functions plots exactly this table. -/
theorem choice_share_normalization :
    (∀ (df : DataFrame) (key col : String) (tbl : UnstackTbl),
      choiceSharesTable df key col = .ok tbl →
      ∀ k row, (k, row) ∈ tbl.2 →
        (row.filterMap Prod.snd).sum = 1 ∧
        ∀ c q, (c, some q) ∈ row →
          q = (countOf c (periodVals df key col k) : ℚ)
                / ((periodVals df key col k).length : ℚ)) ∧
    (∀ (df : DataFrame) (friday : Bool) (fig : ChoiceSharesFig),
      plot_choice_shares df friday = .ok fig →
      choiceSharesTable df "Period" "Choice" = .ok fig.bars) ∧
    (∀ (df : DataFrame) (fig : ChoiceProbFig),
      plot_choice_prob df = .ok fig →
      choiceSharesTable df "Period" "Choice" = .ok fig.bars) ∧
    (∀ (df : DataFrame) (fig : ProbExpFig),
      plot_choice_prob_and_exp_level df = .ok fig →
        choiceSharesTable df "Period" "Choice" = .ok fig.axs0bars ∧
        choiceSharesTable df "Period" "Experience_Fishing" = .ok fig.axs1bars) ∧
    (∀ (df : DataFrame) (fig : FishFig),
      plot_fishing_grounds df = .ok fig →
        ∃ subR subP pR pP,
          query df "Fishing_Grounds" "rich" = .ok subR ∧
          query df "Fishing_Grounds" "poor" = .ok subP ∧
          fig.panels = [pR, pP] ∧
          choiceSharesTable subR "Period" "Choice" = .ok pR.bars ∧
          choiceSharesTable subP "Period" "Choice" = .ok pP.bars) := by
  refine ⟨?_, ?_, ?_, ?_, ?_⟩
  · intro df key col tbl h k row hrow
    rw [choiceSharesTable_ok_eq df key col tbl h] at hrow
    rw [periodVals]
    exact unstack_row_props df.rows key col k row hrow
  · intro df friday fig h
    rw [plot_choice_shares] at h
    cases ht : choiceSharesTable df "Period" "Choice" with
    | error e₁ => rw [ht] at h; exact Except.noConfusion h
    | ok t =>
      rw [ht] at h
      simp only [except_ok_bind] at h
      cases hp : plotBarTbl t with
      | error e₁ => rw [hp] at h; exact Except.noConfusion h
      | ok t₂ =>
        rw [hp] at h
        simp only [except_ok_bind] at h
        cases h
        dsimp only
        rw [plotBarTbl_ok_eq t t₂ hp]
  · intro df fig h
    rw [plot_choice_prob] at h
    cases ht : choiceSharesTable df "Period" "Choice" with
    | error e₁ => rw [ht] at h; exact Except.noConfusion h
    | ok t =>
      rw [ht] at h
      simp only [except_ok_bind] at h
      cases hp : plotBarTbl t with
      | error e₁ => rw [hp] at h; exact Except.noConfusion h
      | ok t₂ =>
        rw [hp] at h
        simp only [except_ok_bind] at h
        cases h
        dsimp only
        rw [plotBarTbl_ok_eq t t₂ hp]
  · intro df fig h
    rw [plot_choice_prob_and_exp_level] at h
    cases ht0 : choiceSharesTable df "Period" "Choice" with
    | error e₁ => rw [ht0] at h; exact Except.noConfusion h
    | ok t0 =>
      rw [ht0] at h
      simp only [except_ok_bind] at h
      cases hp0 : plotBarTbl t0 with
      | error e₁ => rw [hp0] at h; exact Except.noConfusion h
      | ok t0b =>
        rw [hp0] at h
        simp only [except_ok_bind] at h
        cases ht1 : choiceSharesTable df "Period" "Experience_Fishing" with
        | error e₁ => rw [ht1] at h; exact Except.noConfusion h
        | ok t1 =>
          rw [ht1] at h
          simp only [except_ok_bind] at h
          cases hp1 : plotBarTbl t1 with
          | error e₁ => rw [hp1] at h; exact Except.noConfusion h
          | ok t1b =>
            rw [hp1] at h
            simp only [except_ok_bind] at h
            cases h
            constructor
            · dsimp only
              rw [plotBarTbl_ok_eq t0 t0b hp0]
            · dsimp only
              rw [plotBarTbl_ok_eq t1 t1b hp1]
  · intro df fig h
    rw [plot_fishing_grounds] at h
    cases hp0 : fishPanel df "rich" with
    | error e₁ => rw [hp0] at h; exact Except.noConfusion h
    | ok p0 =>
      rw [hp0] at h
      simp only [except_ok_bind] at h
      cases hp1 : fishPanel df "poor" with
      | error e₁ => rw [hp1] at h; exact Except.noConfusion h
      | ok p1 =>
        rw [hp1] at h
        simp only [except_ok_bind] at h
        cases h
        obtain ⟨subR, hqR, htR⟩ := fishPanel_bars df "rich" p0 hp0
        obtain ⟨subP, hqP, htP⟩ := fishPanel_bars df "poor" p1 hp1
        exact ⟨subR, subP, p0, p1, hqR, hqP, rfl, htR, htP⟩

/-- Witness for the C6 theorem at the concrete frame `df0`. -/
theorem choice_share_normalization_witness :
    choiceSharesTable df0 "Period" "Choice" = .ok c6tbl0 ∧
    (c6row0.filterMap Prod.snd).sum = 1 ∧
    (∀ c q, (c, some q) ∈ c6row0 →
      q = (countOf c (periodVals df0 "Period" "Choice" "0") : ℚ)
            / ((periodVals df0 "Period" "Choice" "0").length : ℚ)) := by
  have hmem : ("0", c6row0) ∈ c6tbl0.2 := List.mem_cons_self _ _
  have h := choice_share_normalization.1 df0 "Period" "Choice" c6tbl0 rfl "0" c6row0 hmem
  exact ⟨rfl, h.1, h.2⟩
